import Mathlib

/-!
Shallow embedding of the quiz-nova repository for specification checking.

The embedding covers:
* the answer-comparison and scoring logic of `src/components/QuizPlayer.tsx`
  (`handleSubmit`, `handleTimeRunOut`, `handleNext`, `getRank`,
  `DIFFICULTY_MULTIPLIER`, the countdown effect);
* the realtime audio bridge of the voice-assistant component
  (`createPcmData`, `playAudioChunk`, `cleanup` and the transport callbacks);
* the quiz-generation and video-generation service calls
  (`generateQuiz`, `generateExplainerVideo`).

JavaScript strings are embedded as lists of natural-number code units, and
JavaScript numbers as rationals (with explicit rounding/truncation where the
code stores into integer typed arrays).
-/

namespace QuizNova

/-! ## JavaScript string primitives

The quiz player compares answers with `.toLowerCase().trim()`.  These are
platform builtins, modelled here on lists of code units: `toLowerCase`
lowers the basic-latin letters A-Z (the only case mapping relevant to the
quiz data), and `trim` strips the ECMAScript whitespace code points. -/

/-- Whitespace code points stripped by the string trim builtin: TAB, LF, VT,
FF, CR, SPACE, NBSP, LINE SEPARATOR, PARAGRAPH SEPARATOR, BOM. -/
def jsIsWhitespace (c : ℕ) : Bool :=
  c == 32 || c == 9 || c == 10 || c == 11 || c == 12 || c == 13 ||
  c == 160 || c == 8232 || c == 8233 || c == 65279

/-- Lowercasing of a single code unit (basic-latin range A-Z). -/
def jsToLowerChar (c : ℕ) : ℕ :=
  if 65 ≤ c ∧ c ≤ 90 then c + 32 else c

/-- Lowercasing of a string, code unit by code unit. -/
def toLowerCase (s : List ℕ) : List ℕ := s.map jsToLowerChar

/-- Strip leading and trailing whitespace. -/
def trim (s : List ℕ) : List ℕ :=
  ((s.dropWhile jsIsWhitespace).reverse.dropWhile jsIsWhitespace).reverse

/-- Answer comparison from `handleSubmit` (QuizPlayer.tsx line 197):
`selectedAnswer.toLowerCase().trim() === currentQ.correctAnswer.toLowerCase().trim()`. -/
def answersMatch (selectedAnswer correctAnswer : List ℕ) : Bool :=
  trim (toLowerCase selectedAnswer) == trim (toLowerCase correctAnswer)

/-! ## Quiz session state machine (QuizPlayer.tsx) -/

/-- Difficulty tiers from `types.ts`. -/
inductive Difficulty where
  | easy
  | medium
  | hard
  | veryHard
deriving DecidableEq

/-- The gamification constant `DIFFICULTY_MULTIPLIER` (QuizPlayer.tsx lines 116-121). -/
def DIFFICULTY_MULTIPLIER : Difficulty → ℚ
  | .easy => 1
  | .medium => 1.5
  | .hard => 2
  | .veryHard => 3

/-- JavaScript `Math.round`: round half toward positive infinity. -/
def jsRound (x : ℚ) : ℤ := ⌊x + 1 / 2⌋

/-- The parts of `QuizConfig` (types.ts) that the player logic reads. -/
structure QuizConfig where
  difficulty : Difficulty
  enableTimer : Bool
  secondsPerQuestion : ℕ

/-- A quiz question, reduced to the field the scoring logic reads. -/
structure QuizQuestion where
  correctAnswer : List ℕ

/-- The mutable state of one quiz session (the `useState` cells of `QuizPlayer`). -/
structure QuizState where
  currentIdx : ℕ
  selectedAnswer : List ℕ
  showResult : Bool
  score : ℕ
  coins : ℤ
  quizFinished : Bool
  streak : ℕ
  maxStreak : ℕ
  timeLeft : ℕ
  timerActive : Bool

/-- Coin computation inside `handleSubmit` (QuizPlayer.tsx lines 207-213). -/
def earnedCoins (config : QuizConfig) (timeLeft streak : ℕ) : ℤ :=
  let basePoints : ℚ := 100
  let diffMult : ℚ := DIFFICULTY_MULTIPLIER config.difficulty
  let timeBonus : ℚ := if config.enableTimer then (timeLeft : ℚ) * 2 else 0
  let streakBonus : ℚ := min ((streak : ℚ) * 0.1) 0.5
  jsRound ((basePoints * diffMult + timeBonus) * (1 + streakBonus))

/-- Selecting an answer (`handleAnswer`, QuizPlayer.tsx lines 191-194). -/
def handleAnswer (answer : List ℕ) (s : QuizState) : QuizState :=
  if s.showResult then s else { s with selectedAnswer := answer }

/-- Submitting the selected answer (`handleSubmit`, QuizPlayer.tsx lines 196-236).
The `maxStreak` update is the effect at line 79 (`if streak > maxStreak`). -/
def handleSubmit (quiz : List QuizQuestion) (config : QuizConfig) (s : QuizState) : QuizState :=
  let currentQ := quiz.getD s.currentIdx ⟨[]⟩
  let isCorrect := answersMatch s.selectedAnswer currentQ.correctAnswer
  if isCorrect then
    let earned := earnedCoins config s.timeLeft s.streak
    let newStreak := s.streak + 1
    { s with
      timerActive := false
      score := s.score + 1
      coins := s.coins + earned
      streak := newStreak
      maxStreak := max s.maxStreak newStreak
      showResult := true }
  else
    { s with timerActive := false, streak := 0, showResult := true }

/-- Timer expiry (`handleTimeRunOut`, QuizPlayer.tsx lines 185-189). -/
def handleTimeRunOut (s : QuizState) : QuizState :=
  { s with streak := 0, showResult := true }

/-- One tick of the countdown effect (QuizPlayer.tsx lines 127-142): the
interval only runs while the timer is enabled and active, no result is shown
and the quiz is not finished; on reaching zero it fires `handleTimeRunOut`
and pins `timeLeft` at 0. -/
def timerTick (config : QuizConfig) (s : QuizState) : QuizState :=
  if !config.enableTimer || !s.timerActive || s.showResult || s.quizFinished then s
  else if s.timeLeft ≤ 1 then { handleTimeRunOut s with timeLeft := 0 }
  else { s with timeLeft := s.timeLeft - 1 }

/-- Advancing past a revealed result (`handleNext`, QuizPlayer.tsx lines
238-246) together with the timer-reset effect on `currentIdx` (lines 145-150). -/
def handleNext (quiz : List QuizQuestion) (config : QuizConfig) (s : QuizState) : QuizState :=
  if s.currentIdx < quiz.length - 1 then
    let s1 := { s with currentIdx := s.currentIdx + 1, selectedAnswer := [], showResult := false }
    if config.enableTimer then
      { s1 with timeLeft := config.secondsPerQuestion, timerActive := true }
    else s1
  else
    { s with quizFinished := true }

/-- Rank tiers, named after the titles returned by `getRank`. -/
inductive Rank where
  | galacticOverlord
  | starVoyager
  | spaceCadet
  | rocketRookie
deriving DecidableEq

/-- End-of-session rank mapping (`getRank`, QuizPlayer.tsx lines 248-253). -/
def getRank (percentage : ℚ) : Rank :=
  if percentage = 100 then .galacticOverlord
  else if 80 ≤ percentage then .starVoyager
  else if 50 ≤ percentage then .spaceCadet
  else .rocketRookie

/-! ## Realtime audio bridge (VoiceAssistant component, src/unnamed/part_000) -/

/-- Conversion of one captured 32-bit float sample inside `createPcmData`
(part_000 lines 152-160): clamp to [-1, 1], scale negative values by 0x8000
and non-negative values by 0x7FFF, then store into an `Int16Array` (which
truncates toward zero and wraps to 16 bits). -/
def jsTrunc (x : ℚ) : ℤ := if 0 ≤ x then ⌊x⌋ else ⌈x⌉

/-- Wrap an integer into the signed 16-bit range, as storage into an
`Int16Array` does. -/
def int16Wrap (n : ℤ) : ℤ := (n + 32768) % 65536 - 32768

/-- One sample of `createPcmData`: `s = Math.max(-1, Math.min(1, x));
pcmData[i] = s < 0 ? s * 0x8000 : s * 0x7FFF`. -/
def createPcmSample (x : ℚ) : ℤ :=
  let s : ℚ := max (-1) (min 1 x)
  int16Wrap (jsTrunc (if s < 0 then s * 32768 else s * 32767))

/-- The loop of `createPcmData` over a captured block. -/
def createPcmData : List ℚ → List ℤ
  | [] => []
  | x :: xs => createPcmSample x :: createPcmData xs

/-- Clamp-and-scale formula as the specification words it (no storage step). -/
def pcmSpecFormula (x : ℚ) : ℚ :=
  let s : ℚ := max (-1) (min 1 x)
  if s < 0 then s * 32768 else s * 32767

/-- Scheduling step of `playAudioChunk` (part_000 lines 162-193): a decoded
frame of `numSamples` samples at 24 kHz is scheduled at
`max(ctx.currentTime, nextStartTimeRef.current)` and the cursor advances by
the frame duration.  Returns (scheduled start, new cursor). -/
def playAudioChunk (numSamples : ℕ) (now cursor : ℚ) : ℚ × ℚ :=
  let duration : ℚ := (numSamples : ℚ) / 24000
  let startTime := max now cursor
  (startTime, startTime + duration)

/-- Cursor value after the first `n` frames have been scheduled, for frames of
`numSamples` samples whose `n`-th arrival happens at clock time `t n`, starting
from cursor `c0` (set to `ctx.currentTime` when the session opens). -/
def cursorAfter (t : ℕ → ℚ) (numSamples : ℕ) (c0 : ℚ) : ℕ → ℚ
  | 0 => c0
  | n + 1 => (playAudioChunk numSamples (t n) (cursorAfter t numSamples c0 n)).2

/-- Scheduled start of the `n`-th frame (0-indexed). -/
def scheduledStart (t : ℕ → ℚ) (numSamples : ℕ) (c0 : ℚ) (n : ℕ) : ℚ :=
  (playAudioChunk numSamples (t n) (cursorAfter t numSamples c0 n)).1

/-! ## Voice-assistant lifecycle (part_000) -/

/-- Connection status of the voice panel. -/
inductive VoiceStatus where
  | connecting
  | connected
  | error
deriving DecidableEq

/-- Resource handles and status of the voice-assistant component: each Bool
records whether the corresponding ref currently holds a live resource. -/
structure VoiceState where
  processor : Bool
  sourceNode : Bool
  stream : Bool
  audioContext : Bool
  session : Bool
  status : VoiceStatus
  volume : ℚ
deriving DecidableEq

/-- The `cleanup` function (part_000 lines 34-59): disconnects the processor
and source, stops the microphone tracks, closes the audio context, nulls the
session handle, and resets status and volume. -/
def cleanup (_s : VoiceState) : VoiceState :=
  { processor := false
    sourceNode := false
    stream := false
    audioContext := false
    session := false
    status := .connecting
    volume := 0 }

/-- Closing the panel (or unmounting): the effect at part_000 lines 21-32
invokes `cleanup`. -/
def closePanel (s : VoiceState) : VoiceState := cleanup s

/-- The `onerror` transport callback (part_000 lines 138-141): it only sets
the status. -/
def onTransportError (s : VoiceState) : VoiceState := { s with status := .error }

/-- The `onclose` transport callback (part_000 lines 134-137): it only sets
the status. -/
def onTransportClose (s : VoiceState) : VoiceState := { s with status := .error }

/-- The capture callback (`processor.onaudioprocess`) can only fire while the
processor node and microphone stream are alive. -/
def captureCallbacksActive (s : VoiceState) : Bool := s.processor && s.stream

/-- A fully connected session with capture running. -/
def connectedState : VoiceState :=
  { processor := true
    sourceNode := true
    stream := true
    audioContext := true
    session := true
    status := .connected
    volume := 0 }

/-! ## Service calls (src/unnamed/part_001) -/

/-- JSON values, the possible results of the platform `JSON.parse`. -/
inductive Json where
  | null
  | bool (b : Bool)
  | num (q : ℚ)
  | str (s : String)
  | arr (elems : List Json)
  | obj (fields : List (String × Json))

/-- Field lookup in a JSON object. -/
def getField (fields : List (String × Json)) (key : String) : Option Json :=
  (fields.find? (fun p => p.1 == key)).map (fun p => p.2)

/-- Does the object bind `key` to a JSON string? -/
def isStringField (fields : List (String × Json)) (key : String) : Bool :=
  match getField fields key with
  | some (.str _) => true
  | _ => false

/-- Does a JSON value have the shape of a `QuizQuestion` (types.ts)? -/
def isQuizQuestionJson (j : Json) : Bool :=
  match j with
  | .obj fs =>
    (match getField fs "id" with
     | some (.num _) => true
     | _ => false) &&
    isStringField fs "question" &&
    isStringField fs "correctAnswer" &&
    isStringField fs "explanation" &&
    (match getField fs "type" with
     | some (.str t) => t == "mcq" || t == "true_false" || t == "short" || t == "fill_in"
     | _ => false) &&
    (match getField fs "options" with
     | none => true
     | some (.arr os) => os.all fun o => match o with | .str _ => true | _ => false
     | some _ => false)
  | _ => false

/-- Does a JSON value have the shape of `QuizData` (types.ts)? -/
def isQuizDataJson (j : Json) : Bool :=
  match j with
  | .obj fs =>
    isStringField fs "title" &&
    isStringField fs "summary" &&
    (match getField fs "questions" with
     | some (.arr qs) => qs.all isQuizQuestionJson
     | _ => false)
  | _ => false

/-- The two distinct errors thrown by `generateQuiz`: the no-content throw at
part_001 lines 51-53 (outside the try block) and the catch-all rethrow at
lines 90-93 (which also covers the empty-response throw at line 86). -/
inductive GenError where
  | noContent
  | generationFailed
deriving DecidableEq

/-- Messages carried by the two errors. -/
def errorMessage : GenError → String
  | .noContent => "No content provided"
  | .generationFailed => "Failed to generate quiz. Please try again."

/-- The uploaded file argument of `generateQuiz`. -/
structure UploadedFile where
  data : String
  mimeType : String
deriving DecidableEq

/-- Outcome of `generateQuiz` (part_001 lines 28-94), as a function of the
backend response text.  `jsonParse` stands for the platform `JSON.parse`
(returning `none` when it throws on malformed input).  The parsed value is
returned as-is: the source casts it with `as QuizData` without validation. -/
def generateQuiz (jsonParse : String → Option Json) (text : String)
    (file : Option UploadedFile) (responseText : Option String) :
    Except GenError Json :=
  if text = "" ∧ file = none then .error .noContent
  else
    match responseText with
    | none => .error .generationFailed
    | some rt =>
      if rt = "" then .error .generationFailed
      else
        match jsonParse rt with
        | none => .error .generationFailed
        | some j => .ok j

/-- Outcome of `generateExplainerVideo` (part_001 lines 96-131), as a function
of the video URI reported by the completed long-running operation: the guard
`if (!videoUri) throw` (line 122) rejects a missing URI and the falsy empty
string alike; otherwise the URI is returned with the API key appended
(line 125). -/
def generateExplainerVideo (apiKey : String) (videoUri : Option String) :
    Except String String :=
  match videoUri with
  | none => .error "No video URI returned"
  | some uri =>
    if uri = "" then .error "No video URI returned"
    else .ok (uri ++ "&key=" ++ apiKey)

/-! ## Helper lemmas -/

lemma jsToLowerChar_idem (c : ℕ) : jsToLowerChar (jsToLowerChar c) = jsToLowerChar c := by
  unfold jsToLowerChar
  by_cases h : 65 ≤ c ∧ c ≤ 90
  · rw [if_pos h, if_neg (by omega)]
  · rw [if_neg h, if_neg h]

lemma jsToLowerChar_ws {c : ℕ} (h : jsIsWhitespace c = true) : jsToLowerChar c = c := by
  unfold jsIsWhitespace at h
  simp only [Bool.or_eq_true, beq_iff_eq] at h
  unfold jsToLowerChar
  rw [if_neg (by omega)]

lemma map_toLower_ws {w : List ℕ} (h : ∀ c ∈ w, jsIsWhitespace c = true) :
    ∀ c ∈ w.map jsToLowerChar, jsIsWhitespace c = true := by
  intro c hc
  simp only [List.mem_map] at hc
  obtain ⟨a, ha, rfl⟩ := hc
  rw [jsToLowerChar_ws (h a ha)]
  exact h a ha

lemma dropWhile_ws_nil {w : List ℕ} (h : ∀ c ∈ w, jsIsWhitespace c = true) :
    w.dropWhile jsIsWhitespace = [] := by
  induction w with
  | nil => rfl
  | cons c w ih =>
    rw [List.dropWhile_cons_of_pos (h c (by simp))]
    exact ih fun x hx => h x (by simp [hx])

lemma trim_sandwich {a w w' : List ℕ} (hw : ∀ c ∈ w, jsIsWhitespace c = true)
    (hw' : ∀ c ∈ w', jsIsWhitespace c = true) :
    trim (w ++ a ++ w') = trim a := by
  unfold trim
  rw [List.append_assoc, List.dropWhile_append_of_pos hw, List.dropWhile_append]
  by_cases hne : (a.dropWhile jsIsWhitespace).isEmpty = true
  · rw [if_pos hne, dropWhile_ws_nil hw']
    have ha : a.dropWhile jsIsWhitespace = [] := by simpa using hne
    rw [ha]
  · rw [if_neg hne, List.reverse_append,
      List.dropWhile_append_of_pos fun c hc => hw' c (List.mem_reverse.mp hc)]

lemma answersMatch_sandwich {a b w1 w2 w3 w4 : List ℕ}
    (h1 : ∀ c ∈ w1, jsIsWhitespace c = true) (h2 : ∀ c ∈ w2, jsIsWhitespace c = true)
    (h3 : ∀ c ∈ w3, jsIsWhitespace c = true) (h4 : ∀ c ∈ w4, jsIsWhitespace c = true) :
    answersMatch (w1 ++ a ++ w2) (w3 ++ b ++ w4) = answersMatch a b := by
  unfold answersMatch toLowerCase
  rw [List.map_append, List.map_append, List.map_append, List.map_append,
    trim_sandwich (map_toLower_ws h1) (map_toLower_ws h2),
    trim_sandwich (map_toLower_ws h3) (map_toLower_ws h4)]

lemma toLowerCase_idem (a : List ℕ) : toLowerCase (toLowerCase a) = toLowerCase a := by
  simp [toLowerCase, List.map_map, Function.comp_def, jsToLowerChar_idem]

lemma earnedCoins_nonneg (config : QuizConfig) (timeLeft streak : ℕ) :
    0 ≤ earnedCoins config timeLeft streak := by
  unfold earnedCoins jsRound
  rw [Int.le_floor]
  have hm : (1 : ℚ) ≤ DIFFICULTY_MULTIPLIER config.difficulty := by
    cases config.difficulty <;> norm_num [DIFFICULTY_MULTIPLIER]
  have htb : (0 : ℚ) ≤ (if config.enableTimer then (timeLeft : ℚ) * 2 else 0) := by
    split
    · positivity
    · exact le_refl 0
  have hsb : (0 : ℚ) ≤ min ((streak : ℚ) * 0.1) 0.5 := by positivity
  push_cast
  nlinarith [hm, htb, hsb]

/-! ## Claim theorems -/

/-- C1: on every correct submission the coins granted equal
`round((100 * difficultyMultiplier + timeBonus) * (1 + streakBonus))` with
`difficultyMultiplier` 1/1.5/2/3 by tier, `timeBonus = remainingSeconds * 2`
when the timer is enabled (else 0) and `streakBonus = min(priorStreak * 0.1, 0.5)`;
with Easy difficulty, timer enabled, 10 seconds remaining and prior streak 3
the reward is 156. -/
theorem coin_reward_formula (quiz : List QuizQuestion) (config : QuizConfig) (s : QuizState)
    (h : answersMatch s.selectedAnswer (quiz.getD s.currentIdx ⟨[]⟩).correctAnswer = true) :
    (handleSubmit quiz config s).coins =
      s.coins + jsRound ((100 * DIFFICULTY_MULTIPLIER config.difficulty +
        (if config.enableTimer then (s.timeLeft : ℚ) * 2 else 0)) *
        (1 + min ((s.streak : ℚ) * 0.1) 0.5)) ∧
    DIFFICULTY_MULTIPLIER .easy = 1 ∧ DIFFICULTY_MULTIPLIER .medium = 1.5 ∧
    DIFFICULTY_MULTIPLIER .hard = 2 ∧ DIFFICULTY_MULTIPLIER .veryHard = 3 ∧
    earnedCoins ⟨.easy, true, 15⟩ 10 3 = 156 := by
  refine ⟨?_, rfl, rfl, rfl, rfl, by norm_num [earnedCoins, jsRound, DIFFICULTY_MULTIPLIER]⟩
  simp only [handleSubmit]
  rw [if_pos h]
  rfl

/-- Demonstration quiz data for the concrete witnesses. -/
def demoConfig : QuizConfig := ⟨.easy, true, 15⟩

/-- Demonstration question list for the concrete witnesses. -/
def demoQuiz : List QuizQuestion := [⟨[112, 97, 114, 105, 115]⟩, ⟨[52]⟩]

/-- Demonstration session state: selected answer is a padded, capitalised
variant of the first question's expected answer, 10 seconds remain, prior
streak 3. -/
def demoState : QuizState :=
  { currentIdx := 0
    selectedAnswer := [32, 80, 97, 114, 105, 115, 32]
    showResult := false
    score := 0
    coins := 0
    quizFinished := false
    streak := 3
    maxStreak := 3
    timeLeft := 10
    timerActive := true }

theorem coin_reward_formula_witness :
    answersMatch demoState.selectedAnswer (demoQuiz.getD demoState.currentIdx ⟨[]⟩).correctAnswer
      = true ∧
    (handleSubmit demoQuiz demoConfig demoState).coins = 156 := by
  refine ⟨by decide, ?_⟩
  rw [(coin_reward_formula demoQuiz demoConfig demoState (by decide)).1]
  norm_num [demoState, demoConfig, jsRound, DIFFICULTY_MULTIPLIER]

/-- C7: the end-of-session rank mapping sends exactly 100 to the top tier,
at least 80 (but not 100) to the second tier, at least 50 (below 80) to the
third tier and anything lower to the lowest tier; 100 yields the top tier and
79 the third-highest tier. -/
theorem rank_tiers :
    getRank 100 = Rank.galacticOverlord ∧
    (∀ p : ℚ, p ≠ 100 → 80 ≤ p → getRank p = Rank.starVoyager) ∧
    (∀ p : ℚ, 50 ≤ p → p < 80 → getRank p = Rank.spaceCadet) ∧
    (∀ p : ℚ, p < 50 → getRank p = Rank.rocketRookie) ∧
    getRank 79 = Rank.spaceCadet := by
  refine ⟨by norm_num [getRank], ?_, ?_, ?_, by norm_num [getRank]⟩
  · intro p h1 h2
    rw [getRank, if_neg h1, if_pos h2]
  · intro p h1 h2
    rw [getRank, if_neg (by intro h; rw [h] at h2; norm_num at h2),
      if_neg (not_le.mpr h2), if_pos h1]
  · intro p h1
    rw [getRank, if_neg (by intro h; rw [h] at h1; norm_num at h1),
      if_neg (by intro h; nlinarith), if_neg (not_le.mpr h1)]

theorem rank_tiers_witness :
    (85 : ℚ) ≠ 100 ∧ (80 : ℚ) ≤ 85 ∧
    getRank 85 = Rank.starVoyager ∧ getRank 62 = Rank.spaceCadet ∧
    getRank 10 = Rank.rocketRookie :=
  ⟨by norm_num, by norm_num,
    rank_tiers.2.1 85 (by norm_num) (by norm_num),
    rank_tiers.2.2.1 62 (by norm_num) (by norm_num),
    rank_tiers.2.2.2.1 10 (by norm_num)⟩

/-- C10: every successful video generation returns the job's video URI with
the literal suffix `&key=` followed by the process API key — the key is always
embedded in the returned playback URL; a missing or empty (falsy) URI is an
error. -/
theorem video_url_embeds_key (apiKey uri : String) (h : uri ≠ "") :
    generateExplainerVideo apiKey (some uri) = Except.ok (uri ++ "&key=" ++ apiKey) ∧
    (∀ (videoUri : Option String) (r : String),
      generateExplainerVideo apiKey videoUri = Except.ok r →
      ∃ u, videoUri = some u ∧ r = u ++ "&key=" ++ apiKey) ∧
    generateExplainerVideo apiKey none = Except.error "No video URI returned" ∧
    generateExplainerVideo apiKey (some "") = Except.error "No video URI returned" := by
  refine ⟨?_, ?_, rfl, rfl⟩
  · unfold generateExplainerVideo
    dsimp only
    rw [if_neg h]
  · intro videoUri r hr
    cases videoUri with
    | none => exact absurd hr (by simp [generateExplainerVideo])
    | some u =>
      unfold generateExplainerVideo at hr
      dsimp only at hr
      by_cases hu : u = ""
      · rw [if_pos hu] at hr
        exact absurd hr (by simp)
      · rw [if_neg hu] at hr
        cases hr
        exact ⟨u, rfl, rfl⟩

theorem video_url_embeds_key_witness :
    ("https://v.example/file.mp4" : String) ≠ "" ∧
    generateExplainerVideo "secret" (some "https://v.example/file.mp4")
      = Except.ok ("https://v.example/file.mp4" ++ "&key=" ++ "secret") :=
  ⟨by decide, (video_url_embeds_key "secret" "https://v.example/file.mp4" (by decide)).1⟩

/-- C4: answer comparison ignores surrounding whitespace on both sides, is
case-insensitive, and in particular a padded capitalised answer matches the
lowercase expected answer (" Paris " vs "paris", as code-unit lists). -/
theorem answer_comparison (a b w1 w2 w3 w4 : List ℕ)
    (h1 : ∀ c ∈ w1, jsIsWhitespace c = true) (h2 : ∀ c ∈ w2, jsIsWhitespace c = true)
    (h3 : ∀ c ∈ w3, jsIsWhitespace c = true) (h4 : ∀ c ∈ w4, jsIsWhitespace c = true) :
    answersMatch (w1 ++ a ++ w2) (w3 ++ b ++ w4) = answersMatch a b ∧
    answersMatch (toLowerCase a) (toLowerCase b) = answersMatch a b ∧
    answersMatch [32, 80, 97, 114, 105, 115, 32] [112, 97, 114, 105, 115] = true := by
  refine ⟨answersMatch_sandwich h1 h2 h3 h4, ?_, by decide⟩
  unfold answersMatch
  rw [toLowerCase_idem, toLowerCase_idem]

theorem answer_comparison_witness :
    answersMatch ([32] ++ [80, 97, 114, 105, 115] ++ [32]) ([] ++ [112, 97, 114, 105, 115] ++ [])
      = answersMatch [80, 97, 114, 105, 115] [112, 97, 114, 105, 115] :=
  (answer_comparison [80, 97, 114, 105, 115] [112, 97, 114, 105, 115] [32] [32] [] []
    (by decide) (by decide) (by decide) (by decide)).1

/-- C5: when the enabled countdown reaches zero before a submission, the
session shows the result with the streak reset to zero and score and coins
unchanged; advancing to the next question resets the timer to the configured
seconds-per-question. -/
theorem timer_expiry_and_reset (quiz : List QuizQuestion) (config : QuizConfig) (s : QuizState)
    (ht : config.enableTimer = true) (ha : s.timerActive = true)
    (hsr : s.showResult = false) (hfin : s.quizFinished = false) (hz : s.timeLeft ≤ 1) :
    (timerTick config s).showResult = true ∧
    (timerTick config s).streak = 0 ∧
    (timerTick config s).score = s.score ∧
    (timerTick config s).coins = s.coins ∧
    (timerTick config s).timeLeft = 0 ∧
    (s.currentIdx < quiz.length - 1 →
      (handleNext quiz config s).timeLeft = config.secondsPerQuestion ∧
      (handleNext quiz config s).timerActive = true) := by
  have hguard : (!config.enableTimer || !s.timerActive || s.showResult || s.quizFinished) = false := by
    rw [ht, ha, hsr, hfin]
    rfl
  have htick : timerTick config s = { handleTimeRunOut s with timeLeft := 0 } := by
    unfold timerTick
    rw [hguard, if_neg (by simp), if_pos hz]
  refine ⟨by rw [htick]; rfl, by rw [htick]; rfl, by rw [htick]; rfl, by rw [htick]; rfl,
    by rw [htick], ?_⟩
  intro hidx
  unfold handleNext
  rw [if_pos hidx, if_pos ht]
  exact ⟨rfl, rfl⟩

theorem timer_expiry_and_reset_witness :
    (timerTick demoConfig { demoState with timeLeft := 1 }).streak = 0 ∧
    (timerTick demoConfig { demoState with timeLeft := 1 }).coins = 0 ∧
    (handleNext demoQuiz demoConfig { demoState with timeLeft := 1 }).timeLeft = 15 := by
  have h := timer_expiry_and_reset demoQuiz demoConfig { demoState with timeLeft := 1 }
    rfl rfl rfl rfl (by decide)
  exact ⟨h.2.1, h.2.2.2.1, (h.2.2.2.2.2 (by decide)).1⟩

/-- C9: no state transition of a session (answer selection, submission, timer
tick or expiry, question advancement) decreases the score or coin counter. -/
theorem counters_monotone (quiz : List QuizQuestion) (config : QuizConfig) (s : QuizState)
    (answer : List ℕ) :
    (s.score ≤ (handleSubmit quiz config s).score ∧ s.coins ≤ (handleSubmit quiz config s).coins) ∧
    (s.score ≤ (handleTimeRunOut s).score ∧ s.coins ≤ (handleTimeRunOut s).coins) ∧
    (s.score ≤ (timerTick config s).score ∧ s.coins ≤ (timerTick config s).coins) ∧
    (s.score ≤ (handleNext quiz config s).score ∧ s.coins ≤ (handleNext quiz config s).coins) ∧
    (s.score ≤ (handleAnswer answer s).score ∧ s.coins ≤ (handleAnswer answer s).coins) := by
  refine ⟨?_, ⟨le_refl _, le_refl _⟩, ?_, ?_, ?_⟩
  · simp only [handleSubmit]
    split
    · exact ⟨Nat.le_succ _, le_add_of_nonneg_right (earnedCoins_nonneg config s.timeLeft s.streak)⟩
    · exact ⟨le_refl _, le_refl _⟩
  · unfold timerTick handleTimeRunOut
    split
    · exact ⟨le_refl _, le_refl _⟩
    · split
      · exact ⟨le_refl _, le_refl _⟩
      · exact ⟨le_refl _, le_refl _⟩
  · unfold handleNext
    split
    · split
      · exact ⟨le_refl _, le_refl _⟩
      · exact ⟨le_refl _, le_refl _⟩
    · exact ⟨le_refl _, le_refl _⟩
  · unfold handleAnswer
    split
    · exact ⟨le_refl _, le_refl _⟩
    · exact ⟨le_refl _, le_refl _⟩

/-- C8: each captured sample is converted by clamping to [-1, 1] and scaling
negative values by 32768 and non-negative ones by 32767 (then stored in a
16-bit cell, which never wraps because the result already lies in
[-32768, 32767]); the whole block maps elementwise. -/
theorem pcm_conversion (l : List ℚ) (x : ℚ) :
    createPcmData l = l.map (fun v => jsTrunc (pcmSpecFormula v)) ∧
    createPcmSample x = jsTrunc (pcmSpecFormula x) ∧
    -32768 ≤ createPcmSample x ∧ createPcmSample x ≤ 32767 := by
  have bounds : ∀ v : ℚ, -32768 ≤ jsTrunc (pcmSpecFormula v) ∧ jsTrunc (pcmSpecFormula v) ≤ 32767 := by
    intro v
    have hs1 : (-1 : ℚ) ≤ max (-1) (min 1 v) := le_max_left _ _
    have hs2 : max (-1) (min 1 v) ≤ 1 := max_le (by norm_num) (min_le_left _ _)
    unfold pcmSpecFormula jsTrunc
    by_cases hneg : max (-1) (min 1 v) < 0
    · rw [if_pos hneg, if_neg (by push_neg; nlinarith)]
      constructor
      · have h1 : ((-32769 : ℤ) : ℚ) < max (-1) (min 1 v) * 32768 := by push_cast; nlinarith
        have := Int.lt_ceil.mpr h1
        omega
      · have h2 : max (-1) (min 1 v) * 32768 ≤ ((0 : ℤ) : ℚ) := by push_cast; nlinarith
        have := Int.ceil_le.mpr h2
        omega
    · rw [if_neg hneg]
      push_neg at hneg
      rw [if_pos (by nlinarith)]
      constructor
      · have h1 : ((0 : ℤ) : ℚ) ≤ max (-1) (min 1 v) * 32767 := by push_cast; nlinarith
        have := Int.le_floor.mpr h1
        omega
      · have h2 : max (-1) (min 1 v) * 32767 < (32767 : ℤ) + 1 := by push_cast; nlinarith
        have := Int.floor_le_iff.mpr h2
        omega
  have sample : ∀ v : ℚ, createPcmSample v = jsTrunc (pcmSpecFormula v) := by
    intro v
    show int16Wrap (jsTrunc (pcmSpecFormula v)) = jsTrunc (pcmSpecFormula v)
    have hb := bounds v
    unfold int16Wrap
    omega
  refine ⟨?_, sample x, (sample x ▸ (bounds x).1), (sample x ▸ (bounds x).2)⟩
  induction l with
  | nil => rfl
  | cons y ys ih =>
    show createPcmSample y :: createPcmData ys = _
    rw [List.map_cons, ih, sample y]

/-- C3 counterexample: in a fully connected session, the transport-error
callback releases nothing — the microphone stream, processor and playback
context all stay held and the status becomes `error`, not `connecting`. -/
theorem voice_error_no_teardown :
    (onTransportError connectedState).stream = true ∧
    (onTransportError connectedState).processor = true ∧
    (onTransportError connectedState).audioContext = true ∧
    (onTransportError connectedState).session = true ∧
    captureCallbacksActive (onTransportError connectedState) = true ∧
    (onTransportError connectedState).status ≠ VoiceStatus.connecting := by
  refine ⟨rfl, rfl, rfl, rfl, rfl, ?_⟩
  intro h
  simp [onTransportError, connectedState] at h

/-- C3 (amended): closing the panel tears down the capture stream, processing
nodes, playback context and session handle unconditionally, returns the status
to `connecting`, and leaves no capture callback able to fire; a transport
error or remote close, by contrast, only sets the status to `error` and
releases nothing. -/
theorem voice_cleanup_on_close (s : VoiceState) :
    (closePanel s).processor = false ∧ (closePanel s).sourceNode = false ∧
    (closePanel s).stream = false ∧ (closePanel s).audioContext = false ∧
    (closePanel s).session = false ∧ (closePanel s).status = VoiceStatus.connecting ∧
    captureCallbacksActive (closePanel s) = false ∧
    (onTransportError s).stream = s.stream ∧ (onTransportError s).processor = s.processor ∧
    (onTransportError s).audioContext = s.audioContext ∧ (onTransportError s).session = s.session ∧
    (onTransportError s).status = VoiceStatus.error ∧
    (onTransportClose s).status = VoiceStatus.error :=
  ⟨rfl, rfl, rfl, rfl, rfl, rfl, rfl, rfl, rfl, rfl, rfl, rfl, rfl⟩

lemma scheduledStart_eq (t : ℕ → ℚ) (numSamples : ℕ) (c0 : ℚ)
    (h0 : c0 ≤ t 0)
    (hontime : ∀ n : ℕ, t n ≤ t 0 + n * ((numSamples : ℚ) / 24000)) :
    ∀ n : ℕ, scheduledStart t numSamples c0 n = t 0 + n * ((numSamples : ℚ) / 24000) := by
  have key : ∀ n : ℕ, cursorAfter t numSamples c0 (n + 1)
      = t 0 + (n + 1 : ℕ) * ((numSamples : ℚ) / 24000) := by
    intro n
    induction n with
    | zero =>
      show (playAudioChunk numSamples (t 0) c0).2 = _
      unfold playAudioChunk
      rw [max_eq_left h0]
      push_cast
      ring
    | succ k ih =>
      show (playAudioChunk numSamples (t (k + 1)) (cursorAfter t numSamples c0 (k + 1))).2 = _
      rw [ih]
      unfold playAudioChunk
      rw [max_eq_right (hontime (k + 1))]
      push_cast
      ring
  intro n
  cases n with
  | zero =>
    show (playAudioChunk numSamples (t 0) c0).1 = _
    unfold playAudioChunk
    rw [max_eq_left h0]
    push_cast
    ring
  | succ k =>
    show (playAudioChunk numSamples (t (k + 1)) (cursorAfter t numSamples c0 (k + 1))).1 = _
    rw [key k]
    unfold playAudioChunk
    exact max_eq_right (hontime (k + 1))

/-- C2: each frame is scheduled at `max(currentClockTime, cursor)` and the
cursor advances to `scheduledStart + frameDuration`; for equal-duration frames
arriving in order and on time (and a cursor initialised no later than the first
arrival), the n-th frame starts at
`max(arrivalClockTime, firstFrameStart + n * d)`, so consecutive frames play
back-to-back with no overlap. -/
theorem playback_scheduling (t : ℕ → ℚ) (numSamples : ℕ) (c0 : ℚ)
    (h0 : c0 ≤ t 0)
    (hontime : ∀ n : ℕ, t n ≤ t 0 + n * ((numSamples : ℚ) / 24000)) :
    (∀ now cursor : ℚ, (playAudioChunk numSamples now cursor).1 = max now cursor ∧
      (playAudioChunk numSamples now cursor).2 = max now cursor + (numSamples : ℚ) / 24000) ∧
    (∀ n : ℕ, scheduledStart t numSamples c0 n
      = max (t n) (t 0 + n * ((numSamples : ℚ) / 24000))) ∧
    (∀ n : ℕ, scheduledStart t numSamples c0 (n + 1)
      = scheduledStart t numSamples c0 n + (numSamples : ℚ) / 24000) := by
  have hs := scheduledStart_eq t numSamples c0 h0 hontime
  refine ⟨fun now cursor => ⟨rfl, rfl⟩, ?_, ?_⟩
  · intro n
    rw [hs n, max_eq_right (hontime n)]
  · intro n
    rw [hs n, hs (n + 1)]
    push_cast
    ring

theorem playback_scheduling_witness :
    scheduledStart (fun n => (n : ℚ)) 24000 0 2 = 2 := by
  have h := (playback_scheduling (fun n => (n : ℚ)) 24000 0 (le_refl 0)
    (fun n => by norm_num)).2.1 2
  norm_num at h
  exact h

/-- C6 counterexample: a syntactically valid JSON response that is not a quiz
structure (the number 42, as `JSON.parse "42"` yields) is returned as a
success by `generateQuiz` — the cast is unchecked — so the operation does not
fail whenever the response cannot be parsed as the expected quiz structure. -/
theorem quiz_parse_unchecked :
    generateQuiz (fun _ => some (Json.num 42)) "some text" none (some "42")
      = Except.ok (Json.num 42) ∧
    isQuizDataJson (Json.num 42) = false := by
  constructor
  · unfold generateQuiz
    rw [if_neg (by simp)]
    rfl
  · rfl

/-- C6 (amended): `generateQuiz` fails with the distinct no-content error when
neither text nor file is supplied, immediately and independently of any
backend response; it fails with the generation error when the response text is
missing, empty, or not syntactically valid JSON; the two errors and their
messages are distinguishable.  (Syntactically valid JSON of the wrong shape is
not rejected; see the counterexample.) -/
theorem generate_quiz_failure_modes (jsonParse : String → Option Json) (text : String)
    (file : Option UploadedFile) (rt rt' : Option String) :
    (text = "" ∧ file = none →
      generateQuiz jsonParse text file rt = Except.error GenError.noContent ∧
      generateQuiz jsonParse text file rt = generateQuiz jsonParse text file rt') ∧
    (¬(text = "" ∧ file = none) → rt = none ∨ rt = some "" →
      generateQuiz jsonParse text file rt = Except.error GenError.generationFailed) ∧
    (∀ s : String, ¬(text = "" ∧ file = none) → rt = some s → s ≠ "" → jsonParse s = none →
      generateQuiz jsonParse text file rt = Except.error GenError.generationFailed) ∧
    GenError.noContent ≠ GenError.generationFailed ∧
    errorMessage GenError.noContent ≠ errorMessage GenError.generationFailed := by
  refine ⟨?_, ?_, ?_, by decide, by decide⟩
  · intro h
    unfold generateQuiz
    rw [if_pos h, if_pos h]
    exact ⟨rfl, rfl⟩
  · intro h hrt
    unfold generateQuiz
    rw [if_neg h]
    rcases hrt with h1 | h1 <;> rw [h1]
    dsimp only
    rw [if_pos rfl]
  · intro s h hrt hne hp
    unfold generateQuiz
    rw [if_neg h, hrt]
    dsimp only
    rw [if_neg hne, hp]

theorem generate_quiz_failure_modes_witness :
    (("" : String) = "" ∧ (none : Option UploadedFile) = none) ∧
    generateQuiz (fun _ => none) "" none none = Except.error GenError.noContent :=
  ⟨⟨rfl, rfl⟩,
    ((generate_quiz_failure_modes (fun _ => none) "" none none (some "x")).1 ⟨rfl, rfl⟩).1⟩

end QuizNova
